import Mathlib

/-! Shallow embedding of `src/osrs_item_manager.py`.

Conventions:
* Python exceptions are modelled with `Except PyErr`; `PyErr` lists the
  exception classes the embedded code can raise.
* Python `None`-able values are `Option`s.  Where the code distinguishes a
  JSON key being absent (subscription raises `KeyError`) from a key that is
  present with value `null` (subscription returns `None`), the embedding uses
  `Option (Option _)`: the outer layer is key presence, the inner the value.
* Python dicts are association lists; `alookup` is a lookup returning
  `Option` (the `KeyError` is materialised at each use site).
* Python floats are modelled as rationals (`ℚ`); `parseFloatL` models the
  builtin `float(str)` on optionally signed decimal literals, which covers
  every string the embedded code feeds to it.
* The live-GE fetch (`session.get(item._ge_data_endpoint).json()['item']`) is
  modelled by a stream `f : Nat → GePayload` of successive responses and a
  fetch counter in `GeState`, so that the number of network calls and the
  `Item._ge_data` cache are both observable.  The manager's static-metadata
  map and bucketed price maps are plain state in `OsrsItemManager`
  (`__init__` / `update_prices` only fill them from the network).
-/

/-- Exception classes raised by the embedded code. -/
inductive PyErr
  | keyError
  | typeError
  | attributeError
  | valueError
  | nameError
deriving DecidableEq

/-- The `Timestamp` enum of the OSRS wiki buckets (declaration order matters:
iteration over the enum visits `LATEST` first). -/
inductive Timestamp
  | LATEST
  | FIVE_MINUTE
  | ONE_HOUR
  | SIX_HOUR
deriving DecidableEq

/-- The `GeTimestamp` enum of the official GE windows. -/
inductive GeTimestamp
  | CURRENT
  | TODAY
  | DAY30
  | DAY90
  | DAY180
deriving DecidableEq

/-- The wire value of a `GeTimestamp`, as in the Python enum. -/
def GeTimestamp.value : GeTimestamp → String
  | .CURRENT => "current"
  | .TODAY => "today"
  | .DAY30 => "day30"
  | .DAY90 => "day90"
  | .DAY180 => "day180"

/-- Lookup in an association list modelling a Python dict. -/
def alookup {α β : Type} [DecidableEq α] (k : α) : List (α × β) → Option β
  | [] => none
  | (a, b) :: rest => if a = k then some b else alookup k rest

/-- `str.upper()` on the character list of a string. -/
def pyUpper (l : List Char) : List Char := l.map Char.toUpper

/-- `str.replace(c, '')`: removes every occurrence of the character `c`. -/
def removeChar (c : Char) (l : List Char) : List Char :=
  l.filter (fun a => a ≠ c)

/-- `str.strip(c)`: removes every leading and trailing occurrence of `c`. -/
def stripChar (c : Char) (l : List Char) : List Char :=
  ((l.dropWhile (fun a => a = c)).reverse.dropWhile (fun a => a = c)).reverse

/-- Splits a character list at every `'.'` (used to model decimal parsing). -/
def splitOnDot : List Char → List (List Char)
  | [] => [[]]
  | c :: rest =>
    let r := splitOnDot rest
    if c = '.' then [] :: r
    else
      match r with
      | [] => [[c]]
      | h :: t => (c :: h) :: t

/-- True when every character is an ASCII digit. -/
def isDigitList (l : List Char) : Bool := l.all (fun c => c.isDigit)

/-- Numeric value of a digit string. -/
def digitsVal (l : List Char) : Nat :=
  List.foldl (fun acc c => acc * 10 + (c.toNat - 48)) 0 l

/-- Model of Python `float(s)` on an unsigned decimal literal: digits with an
optional decimal point, at least one digit overall; `none` is `ValueError`. -/
def parseUnsigned (l : List Char) : Option ℚ :=
  match splitOnDot l with
  | [ip] =>
    if ip.isEmpty then none
    else if isDigitList ip then some (digitsVal ip : ℚ) else none
  | [ip, fp] =>
    if ip.isEmpty && fp.isEmpty then none
    else if isDigitList ip && isDigitList fp then
      some ((digitsVal ip : ℚ) + (digitsVal fp : ℚ) / ((10 : ℚ) ^ fp.length))
    else none
  | _ => none

/-- Model of Python `float(s)`: an optional sign then a decimal literal. -/
def parseFloatL : List Char → Option ℚ
  | '-' :: rest => (parseUnsigned rest).map (fun q => -q)
  | '+' :: rest => parseUnsigned rest
  | l => parseUnsigned l

/-- Embedding of `value_to_float` (the string branch; a numeric argument is
passed through unchanged by the Python code and carries no content here).
`none` models the `ValueError` raised by `float`. -/
def value_to_float (s : String) : Option ℚ :=
  let x := removeChar ',' (pyUpper s.data)
  if x.contains 'K' then
    if 1 < x.length then (parseFloatL (removeChar 'K' x)).map (fun q => q * 1000)
    else some 1000
  else if x.contains 'M' then
    if 1 < x.length then (parseFloatL (removeChar 'M' x)).map (fun q => q * 1000000)
    else some 1000000
  else if x.contains 'B' then
    (parseFloatL (removeChar 'B' x)).map (fun q => q * 1000000000)
  else parseFloatL x

/-- `str.lower()`. -/
def pyLower (s : String) : String := String.mk (s.data.map Char.toLower)

/-- `name.lower().replace(" ", "-")`, as used for the platinumtokens link. -/
def linkName (nm : String) : String :=
  String.mk ((pyLower nm).data.map (fun c => if c = ' ' then '-' else c))

/-- A `TimedData` field of `Item`: a dict from `Timestamp` to a nullable
series value. -/
abbrev TimedData := List (Timestamp × Option Int)

/-- Embedding of the `Item` dataclass (the `_ge_data` cache is modelled
separately by `GeState`, and `_ge_data_endpoint` is determined by `id`). -/
structure Item where
  id : String
  members : Option Bool
  lowalch : Option Int
  limit : Option Int
  npc_value : Option Int
  highalch : Option Int
  name : Option String
  high_price : Option Int
  low_price : Option Int
  avg_high_price : TimedData
  high_price_volume : TimedData
  avg_low_price : TimedData
  low_price_volume : TimedData
  margin : Option Int
  roi : Option ℚ
  platinumtokens_link : String
deriving DecidableEq

/-- The margin computed by `Item.__post_init__`: the guard is Python
truthiness of `high_price` and `low_price` (`None` and `0` are falsy). -/
def margin_of (hp lp : Option Int) : Option Int :=
  match hp, lp with
  | some h, some l => if h ≠ 0 ∧ l ≠ 0 then some (h - l) else none
  | _, _ => none

/-- The roi computed by `Item.__post_init__`, under the same truthiness
guard: `margin / low_price * 100` in float (here exact rational) arithmetic. -/
def roi_of (hp lp : Option Int) : Option ℚ :=
  match hp, lp with
  | some h, some l =>
    if h ≠ 0 ∧ l ≠ 0 then some (((h - l : Int) : ℚ) / (l : ℚ) * 100) else none
  | _, _ => none

/-- Embedding of `Item(...)` construction including `__post_init__`.  When
`name` is `None`, `self.name.lower()` raises `AttributeError` (`NoneType` has
no attribute `lower`), so construction fails. -/
def mkItem (id : String) (members : Option Bool)
    (lowalch limit npc_value highalch : Option Int) (name : Option String)
    (high_price low_price : Option Int)
    (d1 d2 d3 d4 : TimedData) : Except PyErr Item :=
  match name with
  | none => .error .attributeError
  | some nm =>
    .ok ⟨id, members, lowalch, limit, npc_value, highalch, some nm,
      high_price, low_price, d1, d2, d3, d4,
      margin_of high_price low_price, roi_of high_price low_price,
      "https://platinumtokens.com/item/" ++ linkName nm⟩

/-- Embedding of `Item._get_timestamp_data`: rejects `LATEST`, then indexes
the timed dict (a missing key raises `KeyError`). -/
def get_timestamp_data (d : TimedData) (ts : Timestamp) :
    Except PyErr (Option Int) :=
  if ts = Timestamp.LATEST then .error .keyError
  else
    match alookup ts d with
    | some v => .ok v
    | none => .error .keyError

/-- Embedding of `Item.get_avg_high_price`. -/
def get_avg_high_price (it : Item) (ts : Timestamp) : Except PyErr (Option Int) :=
  get_timestamp_data it.avg_high_price ts

/-- Embedding of `Item.get_high_price_volume`. -/
def get_high_price_volume (it : Item) (ts : Timestamp) : Except PyErr (Option Int) :=
  get_timestamp_data it.high_price_volume ts

/-- Embedding of `Item.get_avg_low_price`. -/
def get_avg_low_price (it : Item) (ts : Timestamp) : Except PyErr (Option Int) :=
  get_timestamp_data it.avg_low_price ts

/-- Embedding of `Item.get_low_price_volume`. -/
def get_low_price_volume (it : Item) (ts : Timestamp) : Except PyErr (Option Int) :=
  get_timestamp_data it.low_price_volume ts

/-- A static-metadata entry from the `mapping` endpoint.  Each field is
`Option` because `_value_or_none` null-fills a missing key. -/
structure ItemMeta where
  members : Option Bool
  lowalch : Option Int
  limit : Option Int
  value : Option Int
  highalch : Option Int
  name : Option String
deriving DecidableEq

/-- A per-item entry of the `latest` bucket.  `_value_or_none` conflates a
missing key with a `null` value, so one `Option` layer suffices. -/
structure LatestEntry where
  high : Option Int
  low : Option Int
deriving DecidableEq

/-- A per-item entry of a non-`LATEST` bucket.  These four sub-fields are read
by direct subscription in `get_item`, so a missing key (outer `none`) raises
`KeyError` while a present-but-`null` value is `some none`. -/
structure SeriesEntry where
  avgHighPrice : Option (Option Int)
  highPriceVolume : Option (Option Int)
  avgLowPrice : Option (Option Int)
  lowPriceVolume : Option (Option Int)
deriving DecidableEq

/-- The state of `OsrsItemManager`: the static-metadata map `item_info` and
the bucketed price map `price_info`, split by bucket shape (`latest` holds
`{high, low}` entries, every other bucket holds averaged-series entries).
`update_prices` always fills every enum member, so `price_series` is total. -/
structure OsrsItemManager where
  item_info : List (String × ItemMeta)
  price_latest : List (String × LatestEntry)
  price_series : Timestamp → List (String × SeriesEntry)

/-- The per-bucket body of the `get_item` loop: a missing per-item entry is
expected and null-fills all four series values; a present entry missing one of
its four sub-fields raises `KeyError` (the reads are outside the `try`). -/
def seriesAt (st : OsrsItemManager) (item_id : String) (ts : Timestamp) :
    Except PyErr (Option Int × Option Int × Option Int × Option Int) :=
  match alookup item_id (st.price_series ts) with
  | none => .ok (none, none, none, none)
  | some e =>
    match e.avgHighPrice with
    | none => .error .keyError
    | some a =>
      match e.highPriceVolume with
      | none => .error .keyError
      | some b =>
        match e.avgLowPrice with
        | none => .error .keyError
        | some c =>
          match e.lowPriceVolume with
          | none => .error .keyError
          | some d => .ok (a, b, c, d)

/-- The four timed dicts accumulated by the `get_item` loop. -/
structure SeriesMaps where
  ahp : TimedData
  hpv : TimedData
  alp : TimedData
  lpv : TimedData

/-- The `for timestamp in Timestamp` loop of `get_item`, over the listed
buckets, building the four timed dicts. -/
def buildSeries (st : OsrsItemManager) (item_id : String) :
    List Timestamp → Except PyErr SeriesMaps
  | [] => .ok ⟨[], [], [], []⟩
  | ts :: rest =>
    match seriesAt st item_id ts with
    | .error e => .error e
    | .ok (a, b, c, d) =>
      match buildSeries st item_id rest with
      | .error e => .error e
      | .ok m => .ok ⟨(ts, a) :: m.ahp, (ts, b) :: m.hpv, (ts, c) :: m.alp, (ts, d) :: m.lpv⟩

/-- The non-`LATEST` buckets in iteration order (`LATEST` is skipped by the
`continue`). -/
def nonLatest : List Timestamp := [.FIVE_MINUTE, .ONE_HOUR, .SIX_HOUR]

/-- Embedding of `OsrsItemManager.get_item`: chained `_value_or_none` lookups
null-fill the static fields and the latest quote, the bucket loop builds the
four timed dicts, and the record is constructed by `mkItem`. -/
def get_item (st : OsrsItemManager) (item_id : String) : Except PyErr Item :=
  let itm_d := alookup item_id st.item_info
  let itm_pl := alookup item_id st.price_latest
  match buildSeries st item_id nonLatest with
  | .error e => .error e
  | .ok m =>
    mkItem item_id (itm_d.bind ItemMeta.members) (itm_d.bind ItemMeta.lowalch)
      (itm_d.bind ItemMeta.limit) (itm_d.bind ItemMeta.value)
      (itm_d.bind ItemMeta.highalch) (itm_d.bind ItemMeta.name)
      (itm_pl.bind LatestEntry.high) (itm_pl.bind LatestEntry.low)
      m.ahp m.hpv m.alp m.lpv

/-- Python truthiness of an `Item` instance: a dataclass without `__bool__`
or `__len__` is always truthy. -/
def pyTruthyItem (_ : Item) : Bool := true

/-- The loop body of `get_items` over the listed ids: no exception handling,
and the `if item:` check before appending. -/
def get_items_go (st : OsrsItemManager) : List String → Except PyErr (List Item)
  | [] => .ok []
  | item_id :: rest =>
    match get_item st item_id with
    | .error e => .error e
    | .ok it =>
      match get_items_go st rest with
      | .error e => .error e
      | .ok l => .ok (if pyTruthyItem it then it :: l else l)

/-- Embedding of `OsrsItemManager.get_items`: one `get_item` call per key of
the static-metadata map. -/
def get_items (st : OsrsItemManager) : Except PyErr (List Item) :=
  get_items_go st (st.item_info.map Prod.fst)

/-- The annotated fields of the `Item` dataclass in declaration order: the
value of `list(vars(Item)['__annotations__'])`, the default `attributes`
argument of `filter_empty_items`. -/
def item_attr_names : List String :=
  ["id", "members", "lowalch", "limit", "npc_value", "highalch", "name",
   "high_price", "low_price", "avg_high_price", "high_price_volume",
   "avg_low_price", "low_price_volume", "margin", "roi", "platinumtokens_link"]

/-- Embedding of `Item.has_attr`: `bool(getattr(self, attr))`, i.e. Python
truthiness of the named field (`AttributeError` on an unknown name). -/
def has_attr (it : Item) : String → Except PyErr Bool
  | "id" => .ok (it.id != "")
  | "members" => .ok (it.members.getD false)
  | "lowalch" => .ok (match it.lowalch with | none => false | some n => n != 0)
  | "limit" => .ok (match it.limit with | none => false | some n => n != 0)
  | "npc_value" => .ok (match it.npc_value with | none => false | some n => n != 0)
  | "highalch" => .ok (match it.highalch with | none => false | some n => n != 0)
  | "name" => .ok (match it.name with | none => false | some s => s != "")
  | "high_price" => .ok (match it.high_price with | none => false | some n => n != 0)
  | "low_price" => .ok (match it.low_price with | none => false | some n => n != 0)
  | "avg_high_price" => .ok (!it.avg_high_price.isEmpty)
  | "high_price_volume" => .ok (!it.high_price_volume.isEmpty)
  | "avg_low_price" => .ok (!it.avg_low_price.isEmpty)
  | "low_price_volume" => .ok (!it.low_price_volume.isEmpty)
  | "margin" => .ok (match it.margin with | none => false | some n => n != 0)
  | "roi" => .ok (match it.roi with | none => false | some q => q != 0)
  | "platinumtokens_link" => .ok (it.platinumtokens_link != "")
  | _ => .error .attributeError

/-- The value `has_attr` computes on a valid attribute name (`false` on an
unknown name, where `has_attr` raises instead). -/
def has_attrB (it : Item) : String → Bool
  | "id" => it.id != ""
  | "members" => it.members.getD false
  | "lowalch" => match it.lowalch with | none => false | some n => n != 0
  | "limit" => match it.limit with | none => false | some n => n != 0
  | "npc_value" => match it.npc_value with | none => false | some n => n != 0
  | "highalch" => match it.highalch with | none => false | some n => n != 0
  | "name" => match it.name with | none => false | some s => s != ""
  | "high_price" => match it.high_price with | none => false | some n => n != 0
  | "low_price" => match it.low_price with | none => false | some n => n != 0
  | "avg_high_price" => !it.avg_high_price.isEmpty
  | "high_price_volume" => !it.high_price_volume.isEmpty
  | "avg_low_price" => !it.avg_low_price.isEmpty
  | "low_price_volume" => !it.low_price_volume.isEmpty
  | "margin" => match it.margin with | none => false | some n => n != 0
  | "roi" => match it.roi with | none => false | some q => q != 0
  | "platinumtokens_link" => it.platinumtokens_link != ""
  | _ => false

/-- The inner loop of `filter_empty_items`: the include flag is cleared (and
the loop broken) at the first non-truthy attribute. -/
def include_item (it : Item) : List String → Except PyErr Bool
  | [] => .ok true
  | a :: rest =>
    match has_attr it a with
    | .error e => .error e
    | .ok b => if b then include_item it rest else .ok false

/-- The outer loop of `filter_empty_items` over the input records. -/
def filter_empty_items_go (attrs : List String) : List Item → Except PyErr (List Item)
  | [] => .ok []
  | it :: rest =>
    match include_item it attrs with
    | .error e => .error e
    | .ok b =>
      match filter_empty_items_go attrs rest with
      | .error e => .error e
      | .ok l => .ok (if b then it :: l else l)

/-- Embedding of `OsrsItemManager.filter_empty_items` with an explicit
`attributes` argument. -/
def filter_empty_items_with (items : List Item) (attrs : List String) :
    Except PyErr (List Item) :=
  filter_empty_items_go attrs items

/-- Embedding of `OsrsItemManager.filter_empty_items` with its default
`attributes` argument, `list(vars(Item)['__annotations__'])`. -/
def filter_empty_items (items : List Item) : Except PyErr (List Item) :=
  filter_empty_items_with items item_attr_names

/-- An entry of the live-GE payload for one `GeTimestamp` wire key.  Only the
sub-fields the embedded claims touch are carried. -/
structure GeEntry where
  change : Option String
  trend : Option String
deriving DecidableEq

/-- The live-GE payload `session.get(...).json()['item']`: a dict keyed by
the `GeTimestamp` wire values. -/
abbrev GePayload := List (String × GeEntry)

/-- The mutable live-GE state of one `Item`: the `_ge_data` cache (initially
`None`) and the number of network fetches performed so far. -/
structure GeState where
  cache : Option GePayload
  fetched : Nat
deriving DecidableEq

/-- Embedding of `Item._update_ge_data`: always fetches (the stream `f` gives
the response of the n-th fetch), stores the payload in the cache and returns
it. -/
def update_ge_data (f : Nat → GePayload) (s : GeState) : GePayload × GeState :=
  let p := f s.fetched
  (p, ⟨some p, s.fetched + 1⟩)

/-- Embedding of `Item._get_ge_data`: `if self._ge_data:` — the cache is
reused only when it is truthy (a non-`None`, non-empty payload); otherwise
`_update_ge_data` is called. -/
def item_get_ge_data (f : Nat → GePayload) (s : GeState) : GePayload × GeState :=
  match s.cache with
  | some p => if p.isEmpty then update_ge_data f s else (p, s)
  | none => update_ge_data f s

/-- Embedding of `OsrsItemManager._get_ge_data`: forced refresh calls
`_update_ge_data`, otherwise the lazy `_get_ge_data`. -/
def manager_get_ge_data (f : Nat → GePayload) (force_latest : Bool) (s : GeState) :
    GePayload × GeState :=
  if force_latest then update_ge_data f s else item_get_ge_data f s

/-- Embedding of `OsrsItemManager.get_ge_price_change`: windows `CURRENT` and
`TODAY` raise `NameError` before any fetch; otherwise the payload is resolved,
indexed at the window's wire key and at `'change'` (`KeyError` when absent),
stripped of `'%'` on both ends (`str.strip`) and parsed by `float`. -/
def get_ge_price_change (f : Nat → GePayload) (ts : GeTimestamp)
    (force_latest : Bool) (s : GeState) : Except PyErr (ℚ × GeState) :=
  if ts = GeTimestamp.CURRENT ∨ ts = GeTimestamp.TODAY then .error .nameError
  else
    match manager_get_ge_data f force_latest s with
    | (p, s2) =>
      match alookup ts.value p with
      | none => .error .keyError
      | some e =>
        match e.change with
        | none => .error .keyError
        | some c =>
          match parseFloatL (stripChar '%' c.data) with
          | none => .error .valueError
          | some q => .ok (q, s2)

/-- Embedding of `OsrsItemManager.get_ge_trend`: no window validation at all;
the payload is resolved and indexed at the window's wire key and at
`'trend'`. -/
def get_ge_trend (f : Nat → GePayload) (ts : GeTimestamp)
    (force_latest : Bool) (s : GeState) : Except PyErr (String × GeState) :=
  match manager_get_ge_data f force_latest s with
  | (p, s2) =>
    match alookup ts.value p with
    | none => .error .keyError
    | some e =>
      match e.trend with
      | none => .error .keyError
      | some t => .ok (t, s2)

/-- A manager state whose only known item has a 5-minute bucket entry that
lacks the `avgHighPrice` sub-field. -/
def c2st : OsrsItemManager :=
  ⟨[("7", ⟨some true, some 1, some 1, some 1, some 1, some "a"⟩)],
   [("7", ⟨some 10, some 5⟩)],
   fun ts =>
     match ts with
     | Timestamp.FIVE_MINUTE => [("7", ⟨none, some (some 2), some (some 3), some (some 4)⟩)]
     | _ => []⟩

/-- The record built from prices 10/4 with a valid name (the exact value
`mkItem` produces). -/
def c3wItem : Item :=
  ⟨"1", none, none, none, none, none, some "a", some 10, some 4, [], [], [], [],
   margin_of (some 10) (some 4), roi_of (some 10) (some 4),
   "https://platinumtokens.com/item/" ++ linkName "a"⟩

/-- A live-GE payload holding only a current-window entry. -/
def c4payload : GePayload := [("current", ⟨some "1.0%", some "positive"⟩)]

/-- A live-GE cache state populated with a day30 entry. -/
def c5wState : GeState := ⟨some [("day30", ⟨some "-32.0%", some "negative"⟩)], 0⟩

/-- A live-GE cache state whose current-window entry carries a trend. -/
def c5cState : GeState := ⟨some [("current", ⟨none, some "neutral"⟩)], 0⟩

/-- A record with series data at the 5-minute bucket. -/
def c6item : Item :=
  ⟨"1", none, none, none, none, none, some "a", none, none,
   [(Timestamp.FIVE_MINUTE, some 3)], [(Timestamp.FIVE_MINUTE, some 4)],
   [(Timestamp.FIVE_MINUTE, none)], [(Timestamp.FIVE_MINUTE, some 6)],
   none, none, "x"⟩

/-- A record whose every static field is non-null but whose `members` field
is `False` (hence falsy). -/
def c7item : Item :=
  ⟨"2", some false, some 1, some 1, some 1, some 1, some "b",
   some 2, some 1, [(Timestamp.FIVE_MINUTE, some 1)], [(Timestamp.FIVE_MINUTE, some 1)],
   [(Timestamp.FIVE_MINUTE, some 1)], [(Timestamp.FIVE_MINUTE, some 1)],
   some 1, some 100, "y"⟩

/-- A manager state whose only known item has a six-hour bucket entry that
lacks the `lowPriceVolume` sub-field. -/
def c9st : OsrsItemManager :=
  ⟨[("1", ⟨some true, some 1, some 1, some 1, some 1, some "a"⟩)], [],
   fun ts =>
     match ts with
     | Timestamp.SIX_HOUR => [("1", ⟨some (some 2), some (some 3), some (some 4), none⟩)]
     | _ => []⟩

/-- Inversion for a successful `mkItem`: the name was present and the record
is exactly the one the constructor builds. -/
theorem mkItem_ok {id : String} {members : Option Bool}
    {lowalch limit npc_value highalch : Option Int} {name : Option String}
    {high_price low_price : Option Int} {d1 d2 d3 d4 : TimedData} {it : Item}
    (h : mkItem id members lowalch limit npc_value highalch name high_price
        low_price d1 d2 d3 d4 = Except.ok it) :
    ∃ nm, name = some nm ∧
      it = ⟨id, members, lowalch, limit, npc_value, highalch, some nm,
        high_price, low_price, d1, d2, d3, d4,
        margin_of high_price low_price, roi_of high_price low_price,
        "https://platinumtokens.com/item/" ++ linkName nm⟩ := by
  cases name with
  | none => exact absurd h (by simp [mkItem])
  | some nm =>
    refine ⟨nm, rfl, ?_⟩
    simp only [mkItem, Except.ok.injEq] at h
    exact h.symm

/-- Claim C1: on an id with no static-metadata entry, `get_item` does not
return a null-filled record — every static field is indeed null-filled, but
`__post_init__` then evaluates `self.name.lower()` on `None` and raises
`AttributeError`, so the call fails instead of returning a record. -/
theorem c1_unknown_id_raises :
    alookup "1" (OsrsItemManager.mk [] [] (fun _ => [])).item_info = none ∧
    get_item (OsrsItemManager.mk [] [] (fun _ => [])) "1" =
      Except.error PyErr.attributeError :=
  ⟨rfl, rfl⟩

/-- Claim C8, counterexample: the bare scale letter `"B"` does not return the
scale value 1000000000.0 — the `B` branch of `value_to_float` has no
bare-letter case, so `float('')` raises `ValueError`. -/
theorem c8_counterexample :
    value_to_float "B" = none ∧ value_to_float "B" ≠ some 1000000000 := by
  refine ⟨?_, ?_⟩ <;> decide

/-- Claim C8, amended: `value_to_float` scales the numeric prefix by the
trailing letter (1.2k = 1200, 3M = 3000000, 250B = 2.5e11); the bare letters
`"K"` and `"M"` return exactly their scale values, while the bare letter
`"B"` raises `ValueError`. -/
theorem c8_value_to_float_values :
    value_to_float "1.2k" = some 1200 ∧
    value_to_float "3M" = some 3000000 ∧
    value_to_float "250B" = some 250000000000 ∧
    value_to_float "K" = some 1000 ∧
    value_to_float "M" = some 1000000 ∧
    value_to_float "B" = none := by
  have h1 : value_to_float "1.2k" =
      (parseFloatL ['1', '.', '2']).map (fun q => q * 1000) := rfl
  have h2 : parseFloatL ['1', '.', '2'] =
      some ((1 : ℚ) + (2 : ℚ) / ((10 : ℚ) ^ (1 : Nat))) := rfl
  have h3 : value_to_float "3M" =
      (parseFloatL ['3']).map (fun q => q * 1000000) := rfl
  have h4 : parseFloatL ['3'] = some ((3 : Nat) : ℚ) := rfl
  have h5 : value_to_float "250B" =
      (parseFloatL ['2', '5', '0']).map (fun q => q * 1000000000) := rfl
  have h6 : parseFloatL ['2', '5', '0'] = some ((250 : Nat) : ℚ) := rfl
  refine ⟨?_, ?_, ?_, rfl, rfl, rfl⟩
  · rw [h1, h2]
    simp only [Option.map_some']
    norm_num
  · rw [h3, h4]
    simp only [Option.map_some']
    norm_num
  · rw [h5, h6]
    simp only [Option.map_some']
    norm_num

/-- Claim C6: every averaged-series getter raises `KeyError` at `LATEST`,
and at a non-`LATEST` bucket returns the value stored in that getter's timed
dict at that bucket. -/
theorem c6_series_getters (it : Item) (ts : Timestamp) :
    (get_avg_high_price it Timestamp.LATEST = Except.error PyErr.keyError ∧
     get_high_price_volume it Timestamp.LATEST = Except.error PyErr.keyError ∧
     get_avg_low_price it Timestamp.LATEST = Except.error PyErr.keyError ∧
     get_low_price_volume it Timestamp.LATEST = Except.error PyErr.keyError) ∧
    (ts ≠ Timestamp.LATEST →
      (∀ v, alookup ts it.avg_high_price = some v →
        get_avg_high_price it ts = Except.ok v) ∧
      (∀ v, alookup ts it.high_price_volume = some v →
        get_high_price_volume it ts = Except.ok v) ∧
      (∀ v, alookup ts it.avg_low_price = some v →
        get_avg_low_price it ts = Except.ok v) ∧
      (∀ v, alookup ts it.low_price_volume = some v →
        get_low_price_volume it ts = Except.ok v)) := by
  refine ⟨⟨rfl, rfl, rfl, rfl⟩, fun hts => ⟨?_, ?_, ?_, ?_⟩⟩ <;>
    · intro v hv
      simp only [get_avg_high_price, get_high_price_volume, get_avg_low_price,
        get_low_price_volume, get_timestamp_data]
      rw [if_neg hts, hv]

/-- Witness for C6 at a concrete record and bucket. -/
theorem c6_witness :
    get_avg_high_price c6item Timestamp.LATEST = Except.error PyErr.keyError ∧
    get_avg_high_price c6item Timestamp.FIVE_MINUTE = Except.ok (some 3) ∧
    get_avg_low_price c6item Timestamp.FIVE_MINUTE = Except.ok none :=
  ⟨(c6_series_getters c6item Timestamp.FIVE_MINUTE).1.1,
   (((c6_series_getters c6item Timestamp.FIVE_MINUTE).2 (by decide)).1 (some 3) rfl),
   (((c6_series_getters c6item Timestamp.FIVE_MINUTE).2 (by decide)).2.2.1 none rfl)⟩

/-- Claim C3, counterexample: a record constructed with both prices non-null
but `high_price == 0` gets `margin = None`, not `high_price - low_price`,
because the guard in `__post_init__` is truthiness, not a null check. -/
theorem c3_counterexample :
    (mkItem "1" none none none none none (some "a") (some 0) (some 5)
        [] [] [] []).map Item.margin = Except.ok none ∧
    (Except.ok none : Except PyErr (Option Int)) ≠
      Except.ok (some ((0 : Int) - 5)) := by
  refine ⟨rfl, ?_⟩
  intro h
  simp at h

/-- Claim C3, amended: margin and roi are computed exactly when both prices
are non-null and nonzero (Python truthiness), in which case
`margin = high - low` and `roi = margin / low * 100`; when either price is
null or zero, both are `None`. -/
theorem c3_margin_roi (id : String) (members : Option Bool)
    (lowalch limit npc_value highalch : Option Int) (name : Option String)
    (hp lp : Option Int) (d1 d2 d3 d4 : TimedData) (it : Item)
    (hok : mkItem id members lowalch limit npc_value highalch name hp lp
        d1 d2 d3 d4 = Except.ok it) :
    (∀ h l, hp = some h → lp = some l → h ≠ 0 → l ≠ 0 →
      it.margin = some (h - l) ∧
      it.roi = some (((h - l : Int) : ℚ) / (l : ℚ) * 100)) ∧
    ((hp = none ∨ lp = none ∨ hp = some 0 ∨ lp = some 0) →
      it.margin = none ∧ it.roi = none) := by
  obtain ⟨nm, -, hit⟩ := mkItem_ok hok
  subst hit
  constructor
  · rintro h l rfl rfl h0 l0
    constructor
    · simp only [margin_of, if_pos (And.intro h0 l0)]
    · simp only [roi_of, if_pos (And.intro h0 l0)]
  · rintro (rfl | rfl | rfl | rfl)
    · exact ⟨by cases lp <;> rfl, by cases lp <;> rfl⟩
    · exact ⟨by cases hp <;> rfl, by cases hp <;> rfl⟩
    · constructor
      · cases lp with
        | none => rfl
        | some l => simp [margin_of]
      · cases lp with
        | none => rfl
        | some l => simp [roi_of]
    · constructor
      · cases hp with
        | none => rfl
        | some h => simp [margin_of]
      · cases hp with
        | none => rfl
        | some h => simp [roi_of]

/-- Witness for C3 at concrete prices 10 and 4. -/
theorem c3_witness : c3wItem.margin = some 6 ∧ c3wItem.roi = some 150 := by
  have h := (c3_margin_roi "1" none none none none none (some "a")
    (some 10) (some 4) [] [] [] [] c3wItem rfl).1 10 4 rfl rfl
    (by decide) (by decide)
  refine ⟨?_, ?_⟩
  · rw [h.1]
    norm_num
  · rw [h.2]
    norm_num

/-- When a bucket entry is present but lacks one of its four sub-fields, the
per-bucket step raises `KeyError`. -/
theorem seriesAt_missing (st : OsrsItemManager) (item_id : String)
    (ts : Timestamp) (e : SeriesEntry)
    (hl : alookup item_id (st.price_series ts) = some e)
    (hm : e.avgHighPrice = none ∨ e.highPriceVolume = none ∨
      e.avgLowPrice = none ∨ e.lowPriceVolume = none) :
    seriesAt st item_id ts = Except.error PyErr.keyError := by
  obtain ⟨a1, a2, a3, a4⟩ := e
  unfold seriesAt
  rw [hl]
  rcases hm with h | h | h | h
  · subst h
    rfl
  · subst h
    cases a1 <;> rfl
  · subst h
    cases a1 <;> cases a2 <;> rfl
  · subst h
    cases a1 <;> cases a2 <;> cases a3 <;> rfl

/-- The only exception the per-bucket step can raise is `KeyError`. -/
theorem seriesAt_err (st : OsrsItemManager) (item_id : String) (ts : Timestamp)
    (e : PyErr) (h : seriesAt st item_id ts = Except.error e) :
    e = PyErr.keyError := by
  unfold seriesAt at h
  cases hl : alookup item_id (st.price_series ts) with
  | none =>
    rw [hl] at h
    have h2 : (Except.ok (none, none, none, none) :
        Except PyErr (Option Int × Option Int × Option Int × Option Int)) =
        Except.error e := h
    exact Except.noConfusion h2
  | some en =>
    rw [hl] at h
    obtain ⟨a1, a2, a3, a4⟩ := en
    cases a1 <;> cases a2 <;> cases a3 <;> cases a4 <;> simp_all

/-- An erroring bucket anywhere in the loop makes the whole loop error. -/
theorem buildSeries_err (st : OsrsItemManager) (item_id : String) :
    ∀ (L : List Timestamp) (ts : Timestamp), ts ∈ L →
      seriesAt st item_id ts = Except.error PyErr.keyError →
      buildSeries st item_id L = Except.error PyErr.keyError := by
  intro L
  induction L with
  | nil =>
    intro ts hmem _
    cases hmem
  | cons t rest ih =>
    intro ts hmem hse
    rcases List.mem_cons.mp hmem with rfl | hmem2
    · unfold buildSeries
      rw [hse]
    · have hrest := ih ts hmem2 hse
      cases h1 : seriesAt st item_id t with
      | error e1 =>
        have he := seriesAt_err st item_id t e1 h1
        subst he
        unfold buildSeries
        rw [h1]
      | ok v =>
        obtain ⟨a, b, c, d⟩ := v
        unfold buildSeries
        rw [h1, hrest]

/-- A successful loop stores, for every listed bucket, exactly the values the
per-bucket step produced, in each of the four timed dicts. -/
theorem buildSeries_mem (st : OsrsItemManager) (item_id : String) :
    ∀ (L : List Timestamp), L.Nodup → ∀ (m : SeriesMaps),
      buildSeries st item_id L = Except.ok m →
      ∀ ts ∈ L, ∀ a b c d, seriesAt st item_id ts = Except.ok (a, b, c, d) →
        alookup ts m.ahp = some a ∧ alookup ts m.hpv = some b ∧
        alookup ts m.alp = some c ∧ alookup ts m.lpv = some d := by
  intro L
  induction L with
  | nil =>
    intro _ m _ ts hmem
    cases hmem
  | cons t rest ih =>
    intro hnd m hok ts hmem a b c d hse
    unfold buildSeries at hok
    cases h1 : seriesAt st item_id t with
    | error e1 =>
      rw [h1] at hok
      have h2 : (Except.error e1 : Except PyErr SeriesMaps) = Except.ok m := hok
      exact Except.noConfusion h2
    | ok v =>
      obtain ⟨a0, b0, c0, d0⟩ := v
      rw [h1] at hok
      cases h2 : buildSeries st item_id rest with
      | error e2 =>
        rw [h2] at hok
        have h3 : (Except.error e2 : Except PyErr SeriesMaps) = Except.ok m := hok
        exact Except.noConfusion h3
      | ok m0 =>
        rw [h2] at hok
        have h3 : Except.ok (SeriesMaps.mk ((t, a0) :: m0.ahp) ((t, b0) :: m0.hpv)
            ((t, c0) :: m0.alp) ((t, d0) :: m0.lpv)) = Except.ok m := hok
        injection h3 with h3
        subst h3
        rcases List.mem_cons.mp hmem with rfl | hmem2
        · rw [h1] at hse
          injection hse with hse
          simp only [Prod.mk.injEq] at hse
          obtain ⟨rfl, rfl, rfl, rfl⟩ := hse
          refine ⟨?_, ?_, ?_, ?_⟩ <;> simp [alookup]
        · have hne : t ≠ ts := by
            intro hts
            exact (List.nodup_cons.mp hnd).1 (hts ▸ hmem2)
          have hrec := ih (List.nodup_cons.mp hnd).2 m0 h2 ts hmem2 a b c d hse
          refine ⟨?_, ?_, ?_, ?_⟩ <;> simp [alookup, hne, hrec.1, hrec.2.1, hrec.2.2.1, hrec.2.2.2]

/-- Inversion for a successful `get_item`: the loop succeeded and the record
carries exactly the four timed dicts the loop built. -/
theorem get_item_ok (st : OsrsItemManager) (item_id : String) (it : Item)
    (h : get_item st item_id = Except.ok it) :
    ∃ m, buildSeries st item_id nonLatest = Except.ok m ∧
      it.avg_high_price = m.ahp ∧ it.high_price_volume = m.hpv ∧
      it.avg_low_price = m.alp ∧ it.low_price_volume = m.lpv := by
  unfold get_item at h
  cases hbs : buildSeries st item_id nonLatest with
  | error e =>
    rw [hbs] at h
    have h2 : (Except.error e : Except PyErr Item) = Except.ok it := h
    exact Except.noConfusion h2
  | ok m =>
    rw [hbs] at h
    refine ⟨m, rfl, ?_⟩
    have h2 : mkItem item_id ((alookup item_id st.item_info).bind ItemMeta.members)
        ((alookup item_id st.item_info).bind ItemMeta.lowalch)
        ((alookup item_id st.item_info).bind ItemMeta.limit)
        ((alookup item_id st.item_info).bind ItemMeta.value)
        ((alookup item_id st.item_info).bind ItemMeta.highalch)
        ((alookup item_id st.item_info).bind ItemMeta.name)
        ((alookup item_id st.price_latest).bind LatestEntry.high)
        ((alookup item_id st.price_latest).bind LatestEntry.low)
        m.ahp m.hpv m.alp m.lpv = Except.ok it := h
    obtain ⟨nm, -, hit⟩ := mkItem_ok h2
    subst hit
    exact ⟨rfl, rfl, rfl, rfl⟩

/-- Claim C2: for a non-`LATEST` bucket, a missing per-item entry null-fills
all four series fields for that bucket without raising (when the record is
built, each timed dict maps the bucket to `None`), while an entry that is
present but lacks one of its four expected sub-fields makes `get_item` raise
`KeyError` instead of swallowing it. -/
theorem c2_series_bucket_handling (st : OsrsItemManager) (item_id : String)
    (ts : Timestamp) (hts : ts ∈ nonLatest) :
    (alookup item_id (st.price_series ts) = none →
      seriesAt st item_id ts = Except.ok (none, none, none, none) ∧
      ∀ it, get_item st item_id = Except.ok it →
        alookup ts it.avg_high_price = some none ∧
        alookup ts it.high_price_volume = some none ∧
        alookup ts it.avg_low_price = some none ∧
        alookup ts it.low_price_volume = some none) ∧
    (∀ e, alookup item_id (st.price_series ts) = some e →
      (e.avgHighPrice = none ∨ e.highPriceVolume = none ∨
        e.avgLowPrice = none ∨ e.lowPriceVolume = none) →
      get_item st item_id = Except.error PyErr.keyError) := by
  constructor
  · intro hnone
    have hsa : seriesAt st item_id ts = Except.ok (none, none, none, none) := by
      unfold seriesAt
      rw [hnone]
    refine ⟨hsa, ?_⟩
    intro it hit
    obtain ⟨m, hbs, h1, h2, h3, h4⟩ := get_item_ok st item_id it hit
    rw [h1, h2, h3, h4]
    exact buildSeries_mem st item_id nonLatest (by decide) m hbs ts hts
      none none none none hsa
  · intro e hl hm
    have hb := buildSeries_err st item_id nonLatest ts hts
      (seriesAt_missing st item_id ts e hl hm)
    unfold get_item
    rw [hb]

/-- Witness for C2: a concrete state whose 5-minute entry for the known id
lacks `avgHighPrice` makes `get_item` raise `KeyError`. -/
theorem c2_witness : get_item c2st "7" = Except.error PyErr.keyError :=
  (c2_series_bucket_handling c2st "7" Timestamp.FIVE_MINUTE (by decide)).2
    ⟨none, some (some 2), some (some 3), some (some 4)⟩ rfl (Or.inl rfl)

/-- Claim C4, counterexample: a cache populated with an empty (hence falsy)
payload is not reused — the lazy read performs a new fetch and returns a
different payload, because `_get_ge_data` tests `if self._ge_data:` by
truthiness rather than by `is not None`. -/
theorem c4_counterexample :
    (GeState.mk (some []) 0).cache = some [] ∧
    (item_get_ge_data (fun _ => c4payload) (GeState.mk (some []) 0)).2.fetched = 1 ∧
    (item_get_ge_data (fun _ => c4payload) (GeState.mk (some []) 0)).1 = c4payload ∧
    c4payload ≠ ([] : GePayload) := by
  refine ⟨rfl, rfl, rfl, ?_⟩
  decide

/-- Claim C4, amended: once the cache holds a non-empty (truthy) payload,
every lazy read returns it unchanged with no new fetch; a forced refresh
always fetches and replaces the cache regardless of its prior state. -/
theorem c4_cache_semantics (f : Nat → GePayload) (s : GeState) (p : GePayload)
    (hc : s.cache = some p) (hp : p ≠ []) :
    item_get_ge_data f s = (p, s) ∧
    manager_get_ge_data f false s = (p, s) ∧
    (∀ s2 : GeState, manager_get_ge_data f true s2 =
      (f s2.fetched, ⟨some (f s2.fetched), s2.fetched + 1⟩)) := by
  have h1 : item_get_ge_data f s = (p, s) := by
    unfold item_get_ge_data
    rw [hc]
    cases p with
    | nil => exact absurd rfl hp
    | cons a t => rfl
  exact ⟨h1, h1, fun s2 => rfl⟩

/-- Witness for C4 at a concrete populated cache. -/
theorem c4_witness :
    item_get_ge_data (fun _ => []) (GeState.mk (some c4payload) 3) =
      (c4payload, GeState.mk (some c4payload) 3) :=
  (c4_cache_semantics (fun _ => []) (GeState.mk (some c4payload) 3) c4payload
    rfl (by decide)).1

/-- Claim C5, counterexample: `get_ge_trend` performs no window validation —
at `CURRENT`, an invalid window for trend according to the claim, it returns
the payload's trend value instead of failing. -/
theorem c5_counterexample :
    get_ge_trend (fun _ => []) GeTimestamp.CURRENT false c5cState =
      Except.ok ("neutral", c5cState) ∧
    (Except.ok ("neutral", c5cState) : Except PyErr (String × GeState)) ≠
      Except.error PyErr.nameError :=
  ⟨rfl, fun h => Except.noConfusion h⟩

/-- Claim C5, amended: `get_ge_price_change` raises `NameError` for the
windows `CURRENT` and `TODAY` and, for the three valid windows, parses the
payload's change string stripped of leading and trailing `'%'` characters;
`get_ge_trend` does no window validation and returns the payload's trend
value at any window's key. -/
theorem c5_window_behavior (f : Nat → GePayload) (w : GeTimestamp)
    (force_latest : Bool) (s : GeState) :
    ((w = GeTimestamp.CURRENT ∨ w = GeTimestamp.TODAY) →
      get_ge_price_change f w force_latest s = Except.error PyErr.nameError) ∧
    ((w = GeTimestamp.DAY30 ∨ w = GeTimestamp.DAY90 ∨ w = GeTimestamp.DAY180) →
      ∀ p s2 e c, manager_get_ge_data f force_latest s = (p, s2) →
        alookup w.value p = some e → e.change = some c →
        get_ge_price_change f w force_latest s =
          (match parseFloatL (stripChar '%' c.data) with
            | some q => Except.ok (q, s2)
            | none => Except.error PyErr.valueError)) ∧
    (∀ p s2 e t, manager_get_ge_data f force_latest s = (p, s2) →
      alookup w.value p = some e → e.trend = some t →
      get_ge_trend f w force_latest s = Except.ok (t, s2)) := by
  refine ⟨?_, ?_, ?_⟩
  · rintro (rfl | rfl) <;> rfl
  · rintro (rfl | rfl | rfl) <;>
    · intro p s2 e c hm hl hc
      unfold get_ge_price_change
      rw [if_neg (by decide)]
      simp only [hm, hl, hc]
      cases parseFloatL (stripChar '%' c.data) <;> rfl
  · intro p s2 e t hm hl ht
    unfold get_ge_trend
    simp only [hm, hl, ht]

/-- Witness for C5 at a concrete cached payload. -/
theorem c5_witness :
    get_ge_price_change (fun _ => []) GeTimestamp.TODAY false c5wState =
      Except.error PyErr.nameError ∧
    get_ge_trend (fun _ => []) GeTimestamp.DAY30 false c5wState =
      Except.ok ("negative", c5wState) :=
  ⟨(c5_window_behavior (fun _ => []) GeTimestamp.TODAY false c5wState).1
      (Or.inr rfl),
   (c5_window_behavior (fun _ => []) GeTimestamp.DAY30 false c5wState).2.2
      [("day30", ⟨some "-32.0%", some "negative"⟩)] c5wState
      ⟨some "-32.0%", some "negative"⟩ "negative" rfl rfl rfl⟩

/-- On a valid attribute name `has_attr` returns the truthiness value
computed by `has_attrB`. -/
theorem has_attr_ok (it : Item) (a : String) (ha : a ∈ item_attr_names) :
    has_attr it a = Except.ok (has_attrB it a) := by
  fin_cases ha <;> rfl

/-- The inner filter loop computes the conjunction of the per-attribute
truthiness checks. -/
theorem include_item_eq (it : Item) :
    ∀ attrs : List String, (∀ a ∈ attrs, a ∈ item_attr_names) →
      include_item it attrs =
        Except.ok (attrs.all (fun a => has_attrB it a)) := by
  intro attrs
  induction attrs with
  | nil => intro _; rfl
  | cons a rest ih =>
    intro h
    have ha := h a (List.mem_cons_self a rest)
    have hrest := ih (fun x hx => h x (List.mem_cons_of_mem a hx))
    simp only [include_item, has_attr_ok it a ha, List.all_cons]
    cases hb : has_attrB it a with
    | true => simp [hb, hrest]
    | false => simp [hb]

/-- The outer filter loop keeps exactly the records whose every listed
attribute is truthy. -/
theorem filter_go_eq (attrs : List String)
    (h : ∀ a ∈ attrs, a ∈ item_attr_names) :
    ∀ items : List Item,
      filter_empty_items_go attrs items =
        Except.ok (items.filter (fun it => attrs.all (fun a => has_attrB it a))) := by
  intro items
  induction items with
  | nil => rfl
  | cons it rest ih =>
    simp only [filter_empty_items_go, include_item_eq it attrs h, ih,
      List.filter_cons]

/-- Claim C7, counterexample: a record whose `members` field is non-null
(`False`) is nevertheless dropped when `members` is required, because
`has_attr` tests `bool(getattr(...))` — truthiness — rather than `is not
None`. -/
theorem c7_counterexample :
    c7item.members = some false ∧
    filter_empty_items_with [c7item] ["members"] = Except.ok [] :=
  ⟨rfl, rfl⟩

/-- Claim C7, amended: `filter_empty_items` keeps exactly the records whose
every listed attribute is truthy in Python's sense (non-null and non-zero,
non-empty, non-`False`), and its default attribute list is every annotated
field of the `Item` dataclass — quote, series and derived fields included —
not only the static attributes. -/
theorem c7_filter_truthy (items : List Item) (attrs : List String)
    (h : ∀ a ∈ attrs, a ∈ item_attr_names) :
    filter_empty_items_with items attrs =
      Except.ok (items.filter (fun it => attrs.all (fun a => has_attrB it a))) ∧
    filter_empty_items items = filter_empty_items_with items item_attr_names :=
  ⟨filter_go_eq attrs h items, rfl⟩

/-- Witness for C7 at a concrete record and attribute list. -/
theorem c7_witness :
    filter_empty_items_with [c7item] ["name"] =
      Except.ok (List.filter
        (fun it => List.all ["name"] (fun a => has_attrB it a)) [c7item]) ∧
    filter_empty_items [c7item] = filter_empty_items_with [c7item] item_attr_names :=
  c7_filter_truthy [c7item] ["name"] (by decide)

/-- The bulk loop errors exactly when some listed id's `get_item` errors. -/
theorem get_items_go_error_iff (st : OsrsItemManager) :
    ∀ ids : List String,
      (∃ e, get_items_go st ids = Except.error e) ↔
      (∃ item_id, item_id ∈ ids ∧ ∃ e, get_item st item_id = Except.error e) := by
  intro ids
  induction ids with
  | nil =>
    constructor
    · rintro ⟨e, he⟩
      exact Except.noConfusion he
    · rintro ⟨i, hi, -⟩
      cases hi
  | cons item_id rest ih =>
    constructor
    · rintro ⟨e, he⟩
      unfold get_items_go at he
      cases h1 : get_item st item_id with
      | error e1 => exact ⟨item_id, List.mem_cons_self item_id rest, e1, h1⟩
      | ok it =>
        rw [h1] at he
        cases h2 : get_items_go st rest with
        | error e2 =>
          obtain ⟨i, hi, he3⟩ := ih.mp ⟨e2, h2⟩
          exact ⟨i, List.mem_cons_of_mem item_id hi, he3⟩
        | ok l =>
          rw [h2] at he
          have h3 : Except.ok (if pyTruthyItem it then it :: l else l) =
              Except.error e := he
          exact Except.noConfusion h3
    · rintro ⟨i, hi, e, hei⟩
      rcases List.mem_cons.mp hi with rfl | hi2
      · refine ⟨e, ?_⟩
        unfold get_items_go
        rw [hei]
      · cases h1 : get_item st item_id with
        | error e1 =>
          refine ⟨e1, ?_⟩
          unfold get_items_go
          rw [h1]
        | ok it =>
          obtain ⟨e2, h2⟩ := ih.mpr ⟨i, hi2, e, hei⟩
          refine ⟨e2, ?_⟩
          unfold get_items_go
          rw [h1, h2]

/-- Claim C9, counterexample: a state whose only known id has a six-hour
bucket entry missing `lowPriceVolume` makes `get_items` raise `KeyError` —
the bulk call propagates the per-item failure instead of excluding the
item. -/
theorem c9_counterexample : get_items c9st = Except.error PyErr.keyError := rfl

/-- Claim C9, amended: `get_items` has no exception handling — it raises if
and only if `get_item` raises for some known static-metadata id; the
truthiness exclusion never removes a successfully constructed record. -/
theorem c9_bulk_propagation (st : OsrsItemManager) :
    (∃ e, get_items st = Except.error e) ↔
    (∃ item_id, item_id ∈ st.item_info.map Prod.fst ∧
      ∃ e, get_item st item_id = Except.error e) :=
  get_items_go_error_iff st (st.item_info.map Prod.fst)

/-- Witness for C9 at a concrete failing state. -/
theorem c9_witness :
    ∃ item_id, item_id ∈ c9st.item_info.map Prod.fst ∧
      ∃ e, get_item c9st item_id = Except.error e :=
  (c9_bulk_propagation c9st).mp ⟨PyErr.keyError, rfl⟩

/-- A successful bulk loop pairs every listed id with the record its
`get_item` call produced. -/
theorem get_items_go_forall2 (st : OsrsItemManager) :
    ∀ (ids : List String) (l : List Item), get_items_go st ids = Except.ok l →
      List.Forall₂ (fun item_id it => get_item st item_id = Except.ok it) ids l := by
  intro ids
  induction ids with
  | nil =>
    intro l h
    have h2 : (Except.ok [] : Except PyErr (List Item)) = Except.ok l := h
    injection h2 with h2
    subst h2
    exact List.Forall₂.nil
  | cons item_id rest ih =>
    intro l h
    unfold get_items_go at h
    cases h1 : get_item st item_id with
    | error e =>
      rw [h1] at h
      have h2 : (Except.error e : Except PyErr (List Item)) = Except.ok l := h
      exact Except.noConfusion h2
    | ok it =>
      rw [h1] at h
      cases h2 : get_items_go st rest with
      | error e =>
        rw [h2] at h
        have h3 : (Except.error e : Except PyErr (List Item)) = Except.ok l := h
        exact Except.noConfusion h3
      | ok l2 =>
        rw [h2] at h
        have h3 : Except.ok (it :: l2) = Except.ok l := h
        injection h3 with h3
        subst h3
        exact List.Forall₂.cons h1 (ih l2 h2)

/-- Claim C10: `get_item` never returns a record the truthiness check could
drop (`Item` instances are always truthy), so a successful `get_items`
returns exactly one record per static-metadata id, each being the `Except.ok`
value of that id's `get_item` call. -/
theorem c10_get_items_complete (st : OsrsItemManager) (l : List Item)
    (h : get_items st = Except.ok l) :
    (∀ it : Item, pyTruthyItem it = true) ∧
    List.Forall₂ (fun item_id it => get_item st item_id = Except.ok it)
      (st.item_info.map Prod.fst) l :=
  ⟨fun _ => rfl, get_items_go_forall2 st (st.item_info.map Prod.fst) l h⟩

/-- Witness for C10 at a concrete (empty) manager state. -/
theorem c10_witness :
    (∀ it : Item, pyTruthyItem it = true) ∧
    List.Forall₂
      (fun item_id it =>
        get_item (OsrsItemManager.mk [] [] (fun _ => [])) item_id = Except.ok it)
      ((OsrsItemManager.mk [] [] (fun _ => [])).item_info.map Prod.fst) [] :=
  c10_get_items_complete (OsrsItemManager.mk [] [] (fun _ => [])) [] rfl
